import Mathlib

/-!
Shallow embedding of `parsetcx.py` (bradenleith/parsetcx).

Numeric values (floats, timestamps) are modelled as rationals; a parsed
timestamp is its number of seconds (possibly fractional, from the `%f`
field of the `strptime` format).  Python exceptions are modelled by an
explicit error type, and code that can raise returns `Except PyErr`.
A channel whose field is absent from the whole document has `data = None`
in the source; this is modelled as `Option`.
-/

/-- Exception classes raised by the source code.  `nameError` covers
Python's `NameError` and its subclass `UnboundLocalError`. -/
inductive PyErr where
  | indexError
  | typeError
  | valueError
  | nameError
  | zeroDivisionError
  deriving DecidableEq, Repr

/-- One `Trackpoint` element: every field the code reads is optional.
`time` is the parsed timestamp in seconds; `heartRate` is the text of
`HeartRateBpm/Value`; `distance` is `DistanceMeters`; `speed` and
`cadence` are the extension fields `TPX/Speed` and `TPX/RunCadence`;
`position` is the `(LatitudeDegrees, LongitudeDegrees)` pair under
`Position`; `altitude` is `AltitudeMeters`. -/
structure Trackpoint where
  time      : Option ℚ
  heartRate : Option ℚ
  distance  : Option ℚ
  speed     : Option ℚ
  cadence   : Option ℚ
  position  : Option (ℚ × ℚ)
  altitude  : Option ℚ
  deriving DecidableEq, Repr

/-- One `Lap` element: its trackpoints, in document order (the code reads
`Track/Trackpoint` under each lap; multiple `Track`s are flattened). -/
structure Lap where
  trackpoints : List Trackpoint
  deriving DecidableEq, Repr

/-- One `Activity` element: its laps plus the `Creator` header fields read
by `get_device_info`. -/
structure Activity where
  laps         : List Lap
  creatorName  : Option String
  versionMajor : Option String
  versionMinor : Option String
  deriving DecidableEq, Repr

/-- A parsed document: `root = some acts` when the
`/TrainingCenterDatabase` element is present, with `acts` the list of
`Activities/Activity` elements under it. -/
structure Document where
  root : Option (List Activity)
  deriving DecidableEq, Repr

/-- All trackpoints of an activity, laps outer and trackpoints inner,
concatenated into one flat sequence (the loop order of every
`get_data`). -/
def trackpoints (root : Activity) : List Trackpoint :=
  root.laps.foldr (fun lap acc => lap.trackpoints ++ acc) []

/-- The per-trackpoint loop of `Measure.get_data`: if the field is
present, append its value; otherwise append `data[-1]`, which raises
`IndexError` when `data` is still empty (missing field on the first
trackpoint). -/
def getDataLoop {α : Type} (field : Trackpoint → Option α) :
    List Trackpoint → List α → Except PyErr (List α)
  | [], data => .ok data
  | t :: ts, data =>
    match field t with
    | some v => getDataLoop field ts (data ++ [v])
    | none =>
      match data.getLast? with
      | some v => getDataLoop field ts (data ++ [v])
      | none => .error .indexError

/-- `Measure.get_data`: the `findall` presence test (`present` holds of a
trackpoint when the field path matches under it) guards the extraction
loop; if the field matches nowhere in the document the method falls
through and returns `None`. -/
def getData {α : Type} (present : Trackpoint → Bool)
    (field : Trackpoint → Option α) (root : Activity) :
    Except PyErr (Option (List α)) :=
  if (trackpoints root).any present then
    (getDataLoop field (trackpoints root) []).map some
  else
    .ok none

/-- `HeartRate.__init__`: `get_data` with var `HeartRateBpm/ns:Value`. -/
def heartRateMk (root : Activity) : Except PyErr (Option (List ℚ)) :=
  getData (fun t => t.heartRate.isSome) Trackpoint.heartRate root

/-- `Distance.__init__`: `get_data` with var `DistanceMeters`. -/
def distanceMk (root : Activity) : Except PyErr (Option (List ℚ)) :=
  getData (fun t => t.distance.isSome) Trackpoint.distance root

/-- `Speed.__init__`: `get_data` with var `Extensions/ns3:TPX/ns3:Speed`. -/
def speedMk (root : Activity) : Except PyErr (Option (List ℚ)) :=
  getData (fun t => t.speed.isSome) Trackpoint.speed root

/-- `Cadence.__init__`: `get_data` with var
`Extensions/ns3:TPX/ns3:RunCadence`. -/
def cadenceMk (root : Activity) : Except PyErr (Option (List ℚ)) :=
  getData (fun t => t.cadence.isSome) Trackpoint.cadence root

/-- `Location.get_data`: same loop shape as `Measure.get_data`, with the
presence test on the `Position` node and the extracted value the
latitude/longitude pair.  A `Position` node is modelled as carrying both
coordinates. -/
def locationMk (root : Activity) : Except PyErr (Option (List (ℚ × ℚ))) :=
  getData (fun t => t.position.isSome) Trackpoint.position root

/-- `Altitude.__init__`: `get_data` with var `AltitudeMeters`. -/
def altitudeMk (root : Activity) : Except PyErr (Option (List ℚ)) :=
  getData (fun t => t.altitude.isSome) Trackpoint.altitude root

/-- The per-trackpoint loop of `Time.get_data`: a present timestamp is
appended to `raw`; a missing one executes `raw.append(data[-1])`, but the
local variable `data` is only assigned after the loop, so this raises
`UnboundLocalError` (a `NameError`) instead of carrying anything
forward. -/
def timeGetDataLoop : List Trackpoint → List ℚ → Except PyErr (List ℚ)
  | [], raw => .ok raw
  | t :: ts, raw =>
    match t.time with
    | some v => timeGetDataLoop ts (raw ++ [v])
    | none => .error .nameError

/-- `Time.get_data`: presence test on the `Time` field; on success the
elapsed series `data = [x - raw[0] for x in raw]` is returned together
with the raw series; with no `Time` field anywhere the method returns
`None`. -/
def timeGetData (root : Activity) : Except PyErr (Option (List ℚ × List ℚ)) :=
  if (trackpoints root).any (fun t => t.time.isSome) then
    match timeGetDataLoop (trackpoints root) [] with
    | .error e => .error e
    | .ok raw =>
      match raw.head? with
      | none => .error .indexError
      | some r0 => .ok (some (raw.map (fun x => x - r0), raw))
  else
    .ok none

/-- The state built by a successful `Time.__init__`: the elapsed series
(`self.data`) and the raw timestamps (`self.absolute.data`). -/
structure TimeChannel where
  data     : List ℚ
  absolute : List ℚ
  deriving DecidableEq, Repr

/-- `Time.__init__`: `self.data, abs_time = self.get_data(root)`.  When
`get_data` returns `None` (field absent everywhere) the tuple unpacking
raises `TypeError`. -/
def timeMk (root : Activity) : Except PyErr TimeChannel :=
  match timeGetData root with
  | .error e => .error e
  | .ok none => .error .typeError
  | .ok (some (d, r)) => .ok ⟨d, r⟩

/-- `Time.duration`: `self.data[-1]` when the elapsed list is truthy. -/
def timeDuration (tc : TimeChannel) : Option ℚ :=
  if tc.data = [] then none else tc.data.getLast?

/-- `AbsTime.start`: `self.data[0]` when the raw list is truthy. -/
def absTimeStart (l : List ℚ) : Option ℚ :=
  if l = [] then none else l.head?

/-- `AbsTime.finish`: `self.data[-1]` when the raw list is truthy. -/
def absTimeFinish (l : List ℚ) : Option ℚ :=
  if l = [] then none else l.getLast?

/-- The common `min` statistic (`HeartRate`, `Speed`, `Cadence`,
`Altitude`): `min(self.data)` when the data is truthy, `None`
otherwise. -/
def statMin (d : Option (List ℚ)) : Option ℚ :=
  match d with
  | some (x :: xs) => some (xs.foldl min x)
  | _ => none

/-- The common `max` statistic: `max(self.data)` when truthy. -/
def statMax (d : Option (List ℚ)) : Option ℚ :=
  match d with
  | some (x :: xs) => some (xs.foldl max x)
  | _ => none

/-- The common `average` statistic: `sum(self.data) / len(self.data)`
when truthy. -/
def statAverage (d : Option (List ℚ)) : Option ℚ :=
  match d with
  | some (x :: xs) => some ((x :: xs).sum / (x :: xs).length)
  | _ => none

/-- `Distance.raw`: for the first sample it appends `val`; for every
later sample it evaluates `val - sum(li)`, where `li` is an undefined
name, raising `NameError`.  Falsy data returns `None`. -/
def distanceRaw (d : Option (List ℚ)) : Except PyErr (Option (List ℚ)) :=
  match d with
  | some (v :: rest) =>
    match rest with
    | [] => .ok (some [v])
    | _ :: _ => .error .nameError
  | _ => .ok none

/-- `Distance.total`: `self.data[-1]` when truthy. -/
def distanceTotal (d : Option (List ℚ)) : Option ℚ :=
  match d with
  | some (x :: xs) => (x :: xs).getLast?
  | _ => none

/-- The `i > 0` arm of the `Altitude.change` loop:
`val - self.data[i-1]`. -/
def altitudeDeltas : ℚ → List ℚ → List ℚ
  | _, [] => []
  | prev, v :: vs => (v - prev) :: altitudeDeltas v vs

/-- `Altitude.change`: first element `val - val = 0`, then successive
differences; `None` on falsy data. -/
def altitudeChange (d : Option (List ℚ)) : Option (List ℚ) :=
  match d with
  | some (x :: xs) => some ((x - x) :: altitudeDeltas x xs)
  | _ => none

/-- `Location.start`: `self.data[0]` when truthy. -/
def locationStart (d : Option (List (ℚ × ℚ))) : Option (ℚ × ℚ) :=
  match d with
  | some (x :: _) => some x
  | _ => none

/-- `Location.finish`: `self.data[-1]` when truthy. -/
def locationFinish (d : Option (List (ℚ × ℚ))) : Option (ℚ × ℚ) :=
  match d with
  | some (x :: xs) => (x :: xs).getLast?
  | _ => none

/-- `Location.latitude`: the list of first components when truthy. -/
def locationLatitude (d : Option (List (ℚ × ℚ))) : Option (List ℚ) :=
  match d with
  | some (x :: xs) => some ((x :: xs).map Prod.fst)
  | _ => none

/-- `Location.longitude`: the list of second components when truthy. -/
def locationLongitude (d : Option (List (ℚ × ℚ))) : Option (List ℚ) :=
  match d with
  | some (x :: xs) => some ((x :: xs).map Prod.snd)
  | _ => none

/-- Python's `timedelta.seconds` attribute for a duration of `q` seconds:
the normalized seconds component, `floor(q) mod 86400` (days may be
negative, seconds are normalized into `[0, 86400)`, microseconds are
dropped). -/
def tdSeconds (q : ℚ) : ℤ :=
  (⌊q⌋ : ℤ) % 86400

/-- Truth-testing a `Measure` (`bool(obj)` falls back to `__len__`, that
is `len(self.data)`): `len(None)` raises `TypeError`; a list is truthy
when nonempty. -/
def measureTruthy {α : Type} (d : Option (List α)) : Except PyErr Bool :=
  match d with
  | none => .error .typeError
  | some l => .ok (!l.isEmpty)

/-- The pace expression of `Pace.get_data` at one `zip` pair `(t, d)`
with `t0 = _time[0]`:
`(((t - _time[0]).seconds / 60) / (d / 1000))`. -/
def paceVal (t0 : ℚ) (p : ℚ × ℚ) : ℚ :=
  ((tdSeconds (p.1 - t0) : ℚ) / 60) / (p.2 / 1000)

/-- The loop of `Pace.get_data` over `zip(_time, dist)`: float division
by `d / 1000 == 0.0` raises `ZeroDivisionError`. -/
def paceLoop (t0 : ℚ) : List (ℚ × ℚ) → Except PyErr (List ℚ)
  | [] => .ok []
  | p :: rest =>
    if p.2 = 0 then .error .zeroDivisionError
    else (paceLoop t0 rest).map (fun ps => paceVal t0 p :: ps)

/-- `Pace.get_data(_time, dist)`: `if _time and dist:` truth-tests both
channels (raising `TypeError` on an absent one), then builds the pace
list over `zip(_time, dist)`; when either test is falsy the method
returns `None`. -/
def paceGetData (timeData : Option (List ℚ)) (distData : Option (List ℚ)) :
    Except PyErr (Option (List ℚ)) :=
  match measureTruthy timeData with
  | .error e => .error e
  | .ok false => .ok none
  | .ok true =>
    match measureTruthy distData with
    | .error e => .error e
    | .ok false => .ok none
    | .ok true =>
      let tl := timeData.getD []
      let dl := distData.getD []
      (paceLoop tl.headI (tl.zip dl)).map some

/-- `Pace.min`: returns `max(self.data)` when truthy. -/
def paceMin (d : Option (List ℚ)) : Option ℚ :=
  match d with
  | some (x :: xs) => some (xs.foldl max x)
  | _ => none

/-- `Pace.max`: filters the strictly positive entries and returns
`min(li)`; `min` of an empty list raises `ValueError`. -/
def paceMax (d : Option (List ℚ)) : Except PyErr (Option ℚ) :=
  match d with
  | some (x :: xs) =>
    match (x :: xs).filter (fun y => decide (0 < y)) with
    | [] => .error .valueError
    | z :: zs => .ok (some (zs.foldl min z))
  | _ => .ok none

/-- `Pace.average`: returns `self.data[-1]` when truthy. -/
def paceAverage (d : Option (List ℚ)) : Option ℚ :=
  match d with
  | some (x :: xs) => (x :: xs).getLast?
  | _ => none

/-- Python `str.lower` on a path: each character lowercased. -/
def strLower (s : String) : String :=
  ⟨s.data.map Char.toLower⟩

/-- Python `str.endswith` with one suffix: a character-suffix test. -/
def strEndsWith (s suf : String) : Bool :=
  suf.data.isSuffixOf s.data

/-- `TCXParser.get_root`: `None` path or unrecognized extension falls
through to `None`; otherwise `tree.xpath(root)[0]` raises `IndexError`
when the `TrainingCenterDatabase` element is missing, and
`root.xpath(activity)[0]` raises `IndexError` when there is no
activity. -/
def getRoot (tcxFile : Option (String × Document)) :
    Except PyErr (Option Activity) :=
  match tcxFile with
  | none => .ok none
  | some (path, doc) =>
    if strEndsWith (strLower path) ".tcx" || strEndsWith (strLower path) ".xml" then
      match doc.root with
      | none => .error .indexError
      | some acts =>
        match acts.head? with
        | none => .error .indexError
        | some a => .ok (some a)
    else
      .ok none

/-- `TCXParser.get_device_info`: each `xpath(...)[0]` raises `IndexError`
when the header element is missing; otherwise the result is
`(name, "v" + major + "." + minor)`. -/
def getDeviceInfo (root : Activity) : Except PyErr (String × String) :=
  match root.creatorName, root.versionMajor, root.versionMinor with
  | some n, some ma, some mi => .ok (n, "v" ++ ma ++ "." ++ mi)
  | _, _, _ => .error .indexError

/-- The fields set by a non-degenerate `TCXParser.__init__`. -/
structure ParsedTCX where
  time      : TimeChannel
  heartrate : Option (List ℚ)
  distance  : Option (List ℚ)
  speed     : Option (List ℚ)
  cadence   : Option (List ℚ)
  location  : Option (List (ℚ × ℚ))
  altitude  : Option (List ℚ)
  pace      : Option (List ℚ)
  device    : String × String
  deriving DecidableEq, Repr

/-- `TCXParser.__init__`: when `get_root` yields `None` the constructor
sets no channel fields (`none`); otherwise it constructs the channels in
source order (time, heartrate, distance, speed, cadence, location,
altitude, pace, device), propagating the first exception raised. -/
def tcxParserMk (tcxFile : Option (String × Document)) :
    Except PyErr (Option ParsedTCX) :=
  match getRoot tcxFile with
  | .error e => .error e
  | .ok none => .ok none
  | .ok (some root) =>
    match timeMk root with
    | .error e => .error e
    | .ok t =>
      match heartRateMk root with
      | .error e => .error e
      | .ok hr =>
        match distanceMk root with
        | .error e => .error e
        | .ok d =>
          match speedMk root with
          | .error e => .error e
          | .ok s =>
            match cadenceMk root with
            | .error e => .error e
            | .ok c =>
              match locationMk root with
              | .error e => .error e
              | .ok loc =>
                match altitudeMk root with
                | .error e => .error e
                | .ok alt =>
                  match paceGetData (some t.data) d with
                  | .error e => .error e
                  | .ok p =>
                    match getDeviceInfo root with
                    | .error e => .error e
                    | .ok dev => .ok (some ⟨t, hr, d, s, c, loc, alt, p, dev⟩)

/-- Whether an `Except` value is a normal result. -/
def exceptOk {ε α : Type} : Except ε α → Bool
  | .ok _ => true
  | .error _ => false

instance {ε α : Type} [DecidableEq ε] [DecidableEq α] : DecidableEq (Except ε α) := fun a b =>
  match a, b with
  | .ok x, .ok y =>
    if h : x = y then .isTrue (by rw [h]) else .isFalse (fun hc => h (Except.ok.inj hc))
  | .error x, .error y =>
    if h : x = y then .isTrue (by rw [h]) else .isFalse (fun hc => h (Except.error.inj hc))
  | .ok _, .error _ => .isFalse (fun hc => Except.noConfusion hc)
  | .error _, .ok _ => .isFalse (fun hc => Except.noConfusion hc)

/-- Modelled from the spec: the pace formula of §4.7,
`pace[i] = (elapsedSeconds(i) / 60) / (cumulativeDistance(i) / 1000)`,
with `elapsedSeconds(i)` the exact elapsed seconds at index `i`.  This is
the refinement comparison definition for the code's `paceVal`. -/
def specPace (elapsed dist : ℚ) : ℚ :=
  (elapsed / 60) / (dist / 1000)

/-! Concrete sample documents used to evaluate the embedding. -/

/-- A trackpoint with every field absent. -/
def tpEmpty : Trackpoint :=
  ⟨none, none, none, none, none, none, none⟩

/-- A trackpoint carrying a timestamp and a cumulative distance. -/
def tpTD (t d : ℚ) : Trackpoint :=
  ⟨some t, none, some d, none, none, none, none⟩

/-- A trackpoint carrying only a timestamp. -/
def tpT (t : ℚ) : Trackpoint :=
  ⟨some t, none, none, none, none, none, none⟩

/-- A trackpoint carrying only a heart-rate value. -/
def tpHR (h : ℚ) : Trackpoint :=
  ⟨none, some h, none, none, none, none, none⟩

/-- An activity with one lap and no creator header. -/
def act1 (tps : List Trackpoint) : Activity :=
  ⟨[⟨tps⟩], none, none, none⟩

/-- One all-empty trackpoint: every channel field absent everywhere. -/
def c2AbsentRoot : Activity := act1 [tpEmpty]

/-- One trackpoint with only heart rate: the Time field is absent from
the whole document. -/
def c2NoTimeRoot : Activity := act1 [tpHR 100]

/-- Two trackpoints with timestamps 0 s and 10 s and cumulative
distances 100 m and 250 m. -/
def c3Root : Activity := act1 [tpTD 0 100, tpTD 10 250]

/-- Two trackpoints where the second lacks the Time field. -/
def c4Root : Activity := act1 [tpT 0, tpEmpty]

/-- Two trackpoints where the first cumulative distance is 0. -/
def c5Root : Activity := act1 [tpTD 0 0, tpTD 10 50]

/-- Two trackpoints where distance 0 occurs on the first trackpoint and
heart rate is missing on the first trackpoint but present on the
second. -/
def c5CexRoot : Activity :=
  act1 [tpTD 0 0, ⟨some 10, some 100, some 50, none, none, none, none⟩]

/-- Two trackpoints with a fractional second timestamp (1.5 s). -/
def c6Root : Activity := act1 [tpTD 0 500, tpTD (3 / 2) 1000]

/-- A single trackpoint: the only pace value is 0, which is not
strictly positive. -/
def c7Root : Activity := act1 [tpTD 0 1000]

/-- Heart rate missing on the first trackpoint but present later. -/
def c9HrRoot : Activity := act1 [tpEmpty, tpHR 100]

/-- Time missing on the first trackpoint but present later. -/
def c9TimeRoot : Activity := act1 [tpEmpty, tpT 5]

/-- Two trackpoints with timestamps 3 s and 10 s. -/
def c10Root : Activity := act1 [tpT 3, tpT 10]

/-! Helper lemmas about the extraction loops. -/

lemma getDataLoop_length {α : Type} (field : Trackpoint → Option α) :
    ∀ (ts : List Trackpoint) (acc res : List α),
    getDataLoop field ts acc = .ok res → res.length = acc.length + ts.length
  | [], acc, res, h => by
    simp [getDataLoop] at h
    subst h
    simp
  | t :: ts, acc, res, h => by
    cases hft : field t with
    | some v =>
      rw [getDataLoop, hft] at h
      have := getDataLoop_length field ts (acc ++ [v]) res h
      simp at this
      simp [this]
      omega
    | none =>
      rw [getDataLoop, hft] at h
      cases hgl : acc.getLast? with
      | some v =>
        rw [hgl] at h
        have := getDataLoop_length field ts (acc ++ [v]) res h
        simp at this
        simp [this]
        omega
      | none =>
        rw [hgl] at h
        exact Except.noConfusion h

lemma getData_ok_some_length {α : Type} (present : Trackpoint → Bool)
    (field : Trackpoint → Option α) (root : Activity) (l : List α)
    (h : getData present field root = .ok (some l)) :
    l.length = (trackpoints root).length := by
  unfold getData at h
  by_cases hp : (trackpoints root).any present
  · rw [if_pos hp] at h
    cases hloop : getDataLoop field (trackpoints root) [] with
    | ok res =>
      rw [hloop] at h
      simp [Except.map] at h
      subst h
      have := getDataLoop_length field (trackpoints root) [] res hloop
      simpa using this
    | error e =>
      rw [hloop] at h
      simp [Except.map] at h
  · rw [if_neg hp] at h
    simp at h

lemma timeGetDataLoop_length :
    ∀ (ts : List Trackpoint) (acc res : List ℚ),
    timeGetDataLoop ts acc = .ok res → res.length = acc.length + ts.length
  | [], acc, res, h => by
    simp [timeGetDataLoop] at h
    subst h
    simp
  | t :: ts, acc, res, h => by
    cases hft : t.time with
    | some v =>
      rw [timeGetDataLoop, hft] at h
      have := timeGetDataLoop_length ts (acc ++ [v]) res h
      simp at this
      simp [this]
      omega
    | none =>
      rw [timeGetDataLoop, hft] at h
      exact Except.noConfusion h

lemma timeMk_ok_spec (root : Activity) (tc : TimeChannel)
    (h : timeMk root = .ok tc) :
    ∃ r0 raws, tc.absolute = r0 :: raws ∧
      tc.data = (r0 :: raws).map (fun x => x - r0) ∧
      tc.absolute.length = (trackpoints root).length := by
  unfold timeMk at h
  split at h
  · exact Except.noConfusion h
  · exact Except.noConfusion h
  · rename_i d r heq
    replace h := Except.ok.inj h
    subst h
    unfold timeGetData at heq
    split at heq
    · split at heq
      · exact Except.noConfusion heq
      · rename_i raw hloop
        split at heq
        · exact Except.noConfusion heq
        · rename_i r0 hh
          replace heq := Except.ok.inj heq
          replace heq := Option.some.inj heq
          obtain ⟨hd, hr⟩ := Prod.mk.inj heq
          cases raw with
          | nil => simp at hh
          | cons a as =>
            replace hh := Option.some.inj hh
            subst hh
            refine ⟨a, as, hr.symm, ?_, ?_⟩
            · rw [← hd, ← hr]
            · rw [← hr]
              have := timeGetDataLoop_length (trackpoints root) [] (a :: as) hloop
              simpa using this
    · exact Option.noConfusion (Except.ok.inj heq)

/-! Helper lemmas about Python `min`/`max` of a nonempty list, modelled
as left folds. -/

lemma foldl_max_init : ∀ (xs : List ℚ) (z : ℚ), z ≤ xs.foldl max z
  | [], _ => le_refl _
  | a :: as, z => le_trans (le_max_left z a) (foldl_max_init as (max z a))

lemma foldl_max_mem : ∀ (xs : List ℚ) (x : ℚ), xs.foldl max x ∈ x :: xs
  | [], _ => by simp
  | a :: as, x => by
    have h := foldl_max_mem as (max x a)
    simp only [List.foldl_cons]
    rcases List.mem_cons.mp h with h1 | h1
    · rcases max_choice x a with hm | hm
      · rw [h1, hm]
        exact List.mem_cons_self _ _
      · rw [h1, hm]
        exact List.mem_cons_of_mem _ (List.mem_cons_self _ _)
    · exact List.mem_cons_of_mem _ (List.mem_cons_of_mem _ h1)

lemma le_foldl_max : ∀ (xs : List ℚ) (x y : ℚ), y ∈ x :: xs → y ≤ xs.foldl max x
  | [], x, y, h => by
    simp at h
    simp [h]
  | a :: as, x, y, h => by
    simp only [List.foldl_cons]
    rcases List.mem_cons.mp h with h1 | h1
    · subst h1
      exact le_trans (le_max_left y a) (foldl_max_init as (max y a))
    · rcases List.mem_cons.mp h1 with h2 | h2
      · subst h2
        exact le_trans (le_max_right x y) (foldl_max_init as (max x y))
      · exact le_foldl_max as (max x a) y (List.mem_cons_of_mem _ h2)

lemma foldl_min_init : ∀ (xs : List ℚ) (z : ℚ), xs.foldl min z ≤ z
  | [], _ => le_refl _
  | a :: as, z => le_trans (foldl_min_init as (min z a)) (min_le_left z a)

lemma foldl_min_mem : ∀ (xs : List ℚ) (x : ℚ), xs.foldl min x ∈ x :: xs
  | [], _ => by simp
  | a :: as, x => by
    have h := foldl_min_mem as (min x a)
    simp only [List.foldl_cons]
    rcases List.mem_cons.mp h with h1 | h1
    · rcases min_choice x a with hm | hm
      · rw [h1, hm]
        exact List.mem_cons_self _ _
      · rw [h1, hm]
        exact List.mem_cons_of_mem _ (List.mem_cons_self _ _)
    · exact List.mem_cons_of_mem _ (List.mem_cons_of_mem _ h1)

lemma foldl_min_le : ∀ (xs : List ℚ) (x y : ℚ), y ∈ x :: xs → xs.foldl min x ≤ y
  | [], x, y, h => by
    simp at h
    simp [h]
  | a :: as, x, y, h => by
    simp only [List.foldl_cons]
    rcases List.mem_cons.mp h with h1 | h1
    · subst h1
      exact le_trans (foldl_min_init as (min y a)) (min_le_left y a)
    · rcases List.mem_cons.mp h1 with h2 | h2
      · subst h2
        exact le_trans (foldl_min_init as (min x y)) (min_le_right x y)
      · exact foldl_min_le as (min x a) y (List.mem_cons_of_mem _ h2)

/-! Helper lemmas about the pace loop. -/

lemma paceLoop_length (t0 : ℚ) : ∀ (l : List (ℚ × ℚ)) (ps : List ℚ),
    paceLoop t0 l = .ok ps → ps.length = l.length
  | [], ps, h => by
    simp [paceLoop] at h
    simp [← h]
  | p :: rest, ps, h => by
    rw [paceLoop] at h
    split at h
    · exact Except.noConfusion h
    · cases hr : paceLoop t0 rest with
      | error e =>
        rw [hr] at h
        simp [Except.map] at h
      | ok qs =>
        rw [hr] at h
        simp [Except.map] at h
        have := paceLoop_length t0 rest qs hr
        simp [← h, this]

lemma paceLoop_get (t0 : ℚ) : ∀ (l : List (ℚ × ℚ)) (ps : List ℚ),
    paceLoop t0 l = .ok ps →
    ∀ (i : ℕ) (p : ℚ × ℚ), l[i]? = some p → ps[i]? = some (paceVal t0 p)
  | [], ps, h, i, p, hp => by
    simp at hp
  | q :: rest, ps, h, i, p, hp => by
    rw [paceLoop] at h
    split at h
    · exact Except.noConfusion h
    · cases hr : paceLoop t0 rest with
      | error e =>
        rw [hr] at h
        simp [Except.map] at h
      | ok qs =>
        rw [hr] at h
        simp [Except.map] at h
        subst h
        cases i with
        | zero =>
          simp at hp
          simp [hp]
        | succ j =>
          simp only [List.getElem?_cons_succ] at hp
          simpa using paceLoop_get t0 rest qs hr j p hp

lemma paceLoop_zero (t0 : ℚ) : ∀ (l : List (ℚ × ℚ)),
    (∃ p ∈ l, p.2 = 0) → paceLoop t0 l = .error .zeroDivisionError
  | [], h => by
    simp at h
  | p :: rest, h => by
    rw [paceLoop]
    by_cases hz : p.2 = 0
    · rw [if_pos hz]
    · rw [if_neg hz]
      obtain ⟨q, hq, hq0⟩ := h
      rcases List.mem_cons.mp hq with h1 | h1
      · subst h1
        exact absurd hq0 hz
      · rw [paceLoop_zero t0 rest ⟨q, h1, hq0⟩]
        rfl

/-! Helper lemmas about `Pace.get_data` when both channels are present. -/

lemma measureTruthy_cons {α : Type} (a : α) (l : List α) :
    measureTruthy (some (a :: l)) = .ok true := rfl

lemma measureTruthy_of_ne_nil {α : Type} (l : List α) (h : l ≠ []) :
    measureTruthy (some l) = .ok true := by
  cases l with
  | nil => exact absurd rfl h
  | cons a as => rfl

lemma paceGetData_present (td dd : List ℚ) (htd : td ≠ []) (hdd : dd ≠ []) :
    paceGetData (some td) (some dd) =
      (paceLoop td.headI (td.zip dd)).map some := by
  rw [paceGetData, measureTruthy_of_ne_nil td htd, measureTruthy_of_ne_nil dd hdd]
  rfl

lemma paceGetData_ok_some_length (td dd ps : List ℚ) (htd : td ≠ [])
    (h : paceGetData (some td) (some dd) = .ok (some ps)) :
    ps.length = min td.length dd.length := by
  by_cases hdd : dd = []
  · subst hdd
    rw [paceGetData, measureTruthy_of_ne_nil td htd] at h
    simp [measureTruthy] at h
  · rw [paceGetData_present td dd htd hdd] at h
    cases hr : paceLoop td.headI (td.zip dd) with
    | error e =>
      rw [hr] at h
      simp [Except.map] at h
    | ok qs =>
      rw [hr] at h
      simp [Except.map] at h
      subst h
      rw [paceLoop_length td.headI (td.zip dd) qs hr]
      exact List.length_zip td dd

/-! Miscellaneous helper lemmas. -/

lemma getData_absent {α : Type} (present : Trackpoint → Bool)
    (field : Trackpoint → Option α) (root : Activity)
    (h : ∀ t ∈ trackpoints root, present t = false) :
    getData present field root = .ok none := by
  unfold getData
  have hany : (trackpoints root).any present = false := by
    rw [List.any_eq_false]
    intro t ht
    simp [h t ht]
  rw [if_neg (by simp [hany])]

lemma exceptOk_true {ε α : Type} (e : Except ε α) (h : exceptOk e = true) :
    ∃ v, e = .ok v := by
  cases e with
  | ok v => exact ⟨v, rfl⟩
  | error err => simp [exceptOk] at h

lemma timeMk_ok_data (root : Activity) (tc : TimeChannel)
    (h : timeMk root = .ok tc) :
    tc.data ≠ [] ∧ tc.data.length = (trackpoints root).length := by
  obtain ⟨r0, raws, habs, hdata, hlen⟩ := timeMk_ok_spec root tc h
  constructor
  · rw [hdata]
    simp
  · have h1 : tc.data.length = tc.absolute.length := by
      rw [hdata, habs, List.length_map]
    rw [h1]
    exact hlen

/-! The claims. -/

/-- C1: the claim states the intended de-cumulation
`raw[0] = data[0]`, `raw[i] = data[i] - data[i-1]`.  The code is broken:
for any distance series with more than one sample, `Distance.raw`
evaluates `val - sum(li)` where `li` is an undefined name and raises
`NameError`; only the one-sample case returns `[data[0]]`.  This theorem
evaluates the embedded accessor at the failing input `[100, 250]` (claim
would require `[100, 150]`). -/
theorem C1_distance_raw_defect :
    distanceRaw (some [100, 250]) = .error .nameError ∧
    distanceRaw (some [100]) = .ok (some [100]) :=
  ⟨rfl, rfl⟩

/-- C2 counterexample: for the Time channel the claim fails.  In a
document whose trackpoints never carry the Time field,
`Time.__init__` does not produce an absent channel: unpacking the `None`
returned by `get_data` raises `TypeError`. -/
theorem C2_time_absent_raises :
    timeMk c2NoTimeRoot = .error .typeError := rfl

/-- C2 (amended): for the six non-Time channels (HeartRate, Distance,
Speed, Cadence, Location, Altitude), a field absent from every
trackpoint yields an absent channel (`None` data, not an empty list),
and every statistic accessor on absent data returns no-result without
raising; the Time channel is excluded because its construction raises
`TypeError` in that situation. -/
theorem C2_absent_channels (root : Activity) :
    ((∀ t ∈ trackpoints root, t.heartRate = none) →
      heartRateMk root = .ok none) ∧
    ((∀ t ∈ trackpoints root, t.distance = none) →
      distanceMk root = .ok none) ∧
    ((∀ t ∈ trackpoints root, t.speed = none) →
      speedMk root = .ok none) ∧
    ((∀ t ∈ trackpoints root, t.cadence = none) →
      cadenceMk root = .ok none) ∧
    ((∀ t ∈ trackpoints root, t.position = none) →
      locationMk root = .ok none) ∧
    ((∀ t ∈ trackpoints root, t.altitude = none) →
      altitudeMk root = .ok none) ∧
    statMin none = none ∧ statMax none = none ∧ statAverage none = none ∧
    distanceRaw none = .ok none ∧ distanceTotal none = none ∧
    altitudeChange none = none ∧ locationStart none = none ∧
    locationFinish none = none ∧ locationLatitude none = none ∧
    locationLongitude none = none := by
  refine ⟨?_, ?_, ?_, ?_, ?_, ?_, rfl, rfl, rfl, rfl, rfl, rfl, rfl, rfl,
    rfl, rfl⟩
  · intro h
    exact getData_absent _ _ root (fun t ht => by rw [h t ht]; rfl)
  · intro h
    exact getData_absent _ _ root (fun t ht => by rw [h t ht]; rfl)
  · intro h
    exact getData_absent _ _ root (fun t ht => by rw [h t ht]; rfl)
  · intro h
    exact getData_absent _ _ root (fun t ht => by rw [h t ht]; rfl)
  · intro h
    exact getData_absent _ _ root (fun t ht => by rw [h t ht]; rfl)
  · intro h
    exact getData_absent _ _ root (fun t ht => by rw [h t ht]; rfl)

/-- C2 witness: the amended theorem applied to a document whose only
trackpoint has every field absent. -/
theorem C2_absent_channels_witness :
    heartRateMk c2AbsentRoot = .ok none ∧
    distanceMk c2AbsentRoot = .ok none ∧
    speedMk c2AbsentRoot = .ok none ∧
    cadenceMk c2AbsentRoot = .ok none ∧
    locationMk c2AbsentRoot = .ok none ∧
    altitudeMk c2AbsentRoot = .ok none := by
  have h := C2_absent_channels c2AbsentRoot
  have hmem : ∀ t ∈ trackpoints c2AbsentRoot, t = tpEmpty := by
    intro t ht
    simp [trackpoints, c2AbsentRoot, act1] at ht
    exact ht
  exact ⟨h.1 (fun t ht => by rw [hmem t ht]; rfl),
    h.2.1 (fun t ht => by rw [hmem t ht]; rfl),
    h.2.2.1 (fun t ht => by rw [hmem t ht]; rfl),
    h.2.2.2.1 (fun t ht => by rw [hmem t ht]; rfl),
    h.2.2.2.2.1 (fun t ht => by rw [hmem t ht]; rfl),
    h.2.2.2.2.2.1 (fun t ht => by rw [hmem t ht]; rfl)⟩

/-- C4: the claim (carry-forward on a missing field) is the spec's and
the code's intent, but `Time.get_data`'s fallback `raw.append(data[-1])`
names the local `data` before its assignment, so a document whose second
trackpoint lacks the Time field raises `UnboundLocalError` (`NameError`)
instead of carrying the previous raw timestamp forward. -/
theorem C4_time_carry_forward_crashes :
    timeMk c4Root = .error .nameError := rfl

/-- C9: a field present in the document but missing on the first
trackpoint makes `Measure.get_data` raise `IndexError` (`data[-1]` on an
empty list) as the claim states; but for the Time channel the same
situation raises `NameError` (`data` is unbound), not an
index-out-of-range error, so the claimed error class is wrong for
Time. -/
theorem C9_first_sample_error_classes :
    heartRateMk c9HrRoot = .error .indexError ∧
    timeMk c9TimeRoot = .error .nameError ∧
    PyErr.nameError ≠ PyErr.indexError :=
  ⟨rfl, rfl, by decide⟩

/-- C3 counterexample: the claim says Pace built from an absent channel
is absent with no error; in fact `if _time and dist:` truth-tests the
absent `Measure`, and `len(None)` raises `TypeError`.  Shown with an
absent Distance channel (a Time-only document) and directly on
`Pace.get_data`. -/
theorem C3_pace_absent_raises :
    distanceMk (act1 [tpT 0, tpT 10]) = .ok none ∧
    paceGetData (some [0, 10]) none = .error .typeError :=
  ⟨rfl, rfl⟩

/-- C3 (amended): constructing Pace from an absent Time or absent
Distance channel raises `TypeError` (truth-testing calls `len(None)`)
rather than yielding an absent Pace; when both channels are present and
Pace construction returns a list, its length equals the Time length and
the Distance length. -/
theorem C3_pace_absent_and_length (dOpt : Option (List ℚ)) (td : List ℚ)
    (root : Activity) (tc : TimeChannel) (dd ps : List ℚ) :
    (paceGetData none dOpt = .error .typeError) ∧
    (td ≠ [] → paceGetData (some td) none = .error .typeError) ∧
    (timeMk root = .ok tc → distanceMk root = .ok (some dd) →
      paceGetData (some tc.data) (some dd) = .ok (some ps) →
      ps.length = tc.data.length ∧ ps.length = dd.length) := by
  refine ⟨rfl, ?_, ?_⟩
  · intro htd
    rw [paceGetData, measureTruthy_of_ne_nil td htd]
    rfl
  · intro ht hd hp
    obtain ⟨hne, hlen⟩ := timeMk_ok_data root tc ht
    have hdlen : dd.length = (trackpoints root).length :=
      getData_ok_some_length _ _ root dd hd
    have hmin := paceGetData_ok_some_length tc.data dd ps hne hp
    constructor
    · rw [hmin, hlen, hdlen]
      simp
    · rw [hmin, hlen, hdlen]
      simp

/-- C3 witness: the amended theorem applied to absent channels and to a
two-trackpoint document with both channels present. -/
theorem C3_pace_absent_and_length_witness :
    paceGetData none (some [100, 250]) = .error .typeError ∧
    paceGetData (some [(0 : ℚ), 10]) none = .error .typeError ∧
    ([(0 : ℚ), 2 / 3].length = [(0 : ℚ), 10].length ∧
      [(0 : ℚ), 2 / 3].length = [(100 : ℚ), 250].length) := by
  have h := C3_pace_absent_and_length (some [100, 250]) [0, 10] c3Root
    ⟨[0, 10], [0, 10]⟩ [100, 250] [0, 2 / 3]
  refine ⟨h.1, h.2.1 (List.cons_ne_nil _ _), h.2.2 ?_ ?_ ?_⟩
  · norm_num [timeMk, timeGetData, timeGetDataLoop, trackpoints, c3Root,
      act1, tpTD]
  · norm_num [distanceMk, getData, getDataLoop, trackpoints, c3Root,
      act1, tpTD, Except.map]
  · norm_num [paceGetData, measureTruthy, paceLoop, paceVal, tdSeconds,
      Except.map, List.headI]

/-- C5: a document where Time and Distance are both present and some
cumulative distance is 0 makes `Pace.get_data` divide by `d / 1000 == 0`
and raise `ZeroDivisionError`; `TCXParser.__init__` constructs Pace
unconditionally, so (provided the earlier channels construct without
raising) the parser raises the same error instead of producing a pace
value. -/
theorem C5_zero_distance_division (p : String) (doc : Document)
    (root : Activity) (tc : TimeChannel) (dd : List ℚ)
    (hroot : getRoot (some (p, doc)) = .ok (some root))
    (ht : timeMk root = .ok tc)
    (hd : distanceMk root = .ok (some dd))
    (h0 : (0 : ℚ) ∈ dd)
    (hhr : exceptOk (heartRateMk root) = true)
    (hsp : exceptOk (speedMk root) = true)
    (hcd : exceptOk (cadenceMk root) = true)
    (hlo : exceptOk (locationMk root) = true)
    (hal : exceptOk (altitudeMk root) = true) :
    paceGetData (some tc.data) (some dd) = .error .zeroDivisionError ∧
    tcxParserMk (some (p, doc)) = .error .zeroDivisionError := by
  obtain ⟨hne, hlen⟩ := timeMk_ok_data root tc ht
  have hdlen : dd.length = (trackpoints root).length :=
    getData_ok_some_length _ _ root dd hd
  have hzip : ∃ q ∈ tc.data.zip dd, q.2 = (0 : ℚ) := by
    obtain ⟨i, hi⟩ := List.mem_iff_get?.mp h0
    obtain ⟨hilt, _⟩ := List.get?_eq_some.mp hi
    have hilt2 : i < tc.data.length := by
      rw [hlen, ← hdlen]
      exact hilt
    have hti : tc.data.get? i = some (tc.data.get ⟨i, hilt2⟩) :=
      List.get?_eq_get hilt2
    have hz : (tc.data.zip dd).get? i =
        some (tc.data.get ⟨i, hilt2⟩, 0) :=
      (List.get?_zip_eq_some _ _ _ i).mpr ⟨hti, hi⟩
    exact ⟨_, List.get?_mem hz, rfl⟩
  have hploop : paceLoop tc.data.headI (tc.data.zip dd) =
      .error .zeroDivisionError :=
    paceLoop_zero _ _ hzip
  have hdne : dd ≠ [] := List.ne_nil_of_mem h0
  have hpace : paceGetData (some tc.data) (some dd) =
      .error .zeroDivisionError := by
    rw [paceGetData_present tc.data dd hne hdne, hploop]
    rfl
  refine ⟨hpace, ?_⟩
  obtain ⟨hrv, hhr_eq⟩ := exceptOk_true _ hhr
  obtain ⟨spv, hsp_eq⟩ := exceptOk_true _ hsp
  obtain ⟨cdv, hcd_eq⟩ := exceptOk_true _ hcd
  obtain ⟨lov, hlo_eq⟩ := exceptOk_true _ hlo
  obtain ⟨alv, hal_eq⟩ := exceptOk_true _ hal
  simp [tcxParserMk, hroot, ht, hd, hhr_eq, hsp_eq, hcd_eq, hlo_eq,
    hal_eq, hpace]

/-- C5 witness: a `.tcx` file whose first trackpoint has
`DistanceMeters` 0 while Time and Distance are both present. -/
theorem C5_zero_distance_division_witness :
    paceGetData (some [(0 : ℚ), 10]) (some [(0 : ℚ), 50]) =
      .error .zeroDivisionError ∧
    tcxParserMk (some ("w.tcx", ⟨some [c5Root]⟩)) =
      .error .zeroDivisionError := by
  have h := C5_zero_distance_division "w.tcx" ⟨some [c5Root]⟩ c5Root
    ⟨[0, 10], [0, 10]⟩ [0, 50]
    rfl
    (by norm_num [timeMk, timeGetData, timeGetDataLoop, trackpoints,
      c5Root, act1, tpTD])
    (by norm_num [distanceMk, getData, getDataLoop, trackpoints, c5Root,
      act1, tpTD, Except.map])
    (by simp)
    rfl rfl rfl rfl rfl
  exact ⟨h.1, h.2⟩

/-- C6 counterexample: with a fractional elapsed time of 1.5 s the code
computes `(t - _time[0]).seconds`, the truncated seconds component, so
the pace at index 1 is `(1/60)/(1000/1000) = 1/60`, while the claimed
formula with exact elapsed seconds gives
`specPace (3/2) 1000 = (1.5/60)/1 = 1/40`. -/
theorem C6_truncated_seconds :
    timeMk c6Root = .ok ⟨[0, 3 / 2], [0, 3 / 2]⟩ ∧
    distanceMk c6Root = .ok (some [500, 1000]) ∧
    paceGetData (some [0, 3 / 2]) (some [500, 1000]) =
      .ok (some [0, 1 / 60]) ∧
    specPace (3 / 2) 1000 = 1 / 40 ∧
    ((1 : ℚ) / 60) ≠ 1 / 40 := by
  refine ⟨?_, ?_, ?_, ?_, ?_⟩
  · norm_num [timeMk, timeGetData, timeGetDataLoop, trackpoints, c6Root,
      act1, tpTD]
  · norm_num [distanceMk, getData, getDataLoop, trackpoints, c6Root,
      act1, tpTD, Except.map]
  · norm_num [paceGetData, measureTruthy, paceLoop, paceVal, tdSeconds,
      Except.map, List.headI]
  · norm_num [specPace]
  · norm_num

/-- C6 (amended): when Time and Distance are both present, each pace
value is `((t - data[0]).seconds / 60) / (d / 1000)` with `t` the
elapsed value and `d` the cumulative distance at the same index, where
`.seconds` is the truncated, day-wrapped seconds component
(`floor mod 86400`) of the elapsed time, not its exact value. -/
theorem C6_pace_formula (root : Activity) (tc : TimeChannel)
    (dd ps : List ℚ) (i : ℕ) (t d : ℚ)
    (ht : timeMk root = .ok tc)
    (hd : distanceMk root = .ok (some dd))
    (hp : paceGetData (some tc.data) (some dd) = .ok (some ps))
    (hti : tc.data[i]? = some t)
    (hdi : dd[i]? = some d) :
    ps[i]? =
      some (((tdSeconds (t - tc.data.headI) : ℚ) / 60) / (d / 1000)) := by
  obtain ⟨hne, _⟩ := timeMk_ok_data root tc ht
  have hdne : dd ≠ [] := by
    intro hnil
    subst hnil
    simp at hdi
  rw [paceGetData_present tc.data dd hne hdne] at hp
  cases hr : paceLoop tc.data.headI (tc.data.zip dd) with
  | error e =>
    rw [hr] at hp
    simp [Except.map] at hp
  | ok qs =>
    rw [hr] at hp
    simp [Except.map] at hp
    subst hp
    have hz0 : (tc.data.zip dd).get? i = some (t, d) :=
      (List.get?_zip_eq_some _ _ _ i).mpr
        ⟨by rw [List.get?_eq_getElem?]; exact hti,
         by rw [List.get?_eq_getElem?]; exact hdi⟩
    have hz : (tc.data.zip dd)[i]? = some (t, d) := by
      rw [← List.get?_eq_getElem?]
      exact hz0
    exact paceLoop_get tc.data.headI (tc.data.zip dd) qs hr i (t, d) hz

/-- C6 witness: the amended formula evaluated at index 1 of the
fractional-second document. -/
theorem C6_pace_formula_witness :
    [(0 : ℚ), 1 / 60][1]? =
      some (((tdSeconds ((3 : ℚ) / 2 -
        (⟨[0, 3 / 2], [0, 3 / 2]⟩ : TimeChannel).data.headI) : ℚ) / 60) /
        ((1000 : ℚ) / 1000)) :=
  C6_pace_formula c6Root ⟨[0, 3 / 2], [0, 3 / 2]⟩ [500, 1000]
    [0, 1 / 60] 1 (3 / 2) 1000
    (by norm_num [timeMk, timeGetData, timeGetDataLoop, trackpoints,
      c6Root, act1, tpTD])
    (by norm_num [distanceMk, getData, getDataLoop, trackpoints, c6Root,
      act1, tpTD, Except.map])
    (by norm_num [paceGetData, measureTruthy, paceLoop, paceVal,
      tdSeconds, Except.map, List.headI])
    (by norm_num)
    (by norm_num)

lemma getLast?_cons_some : ∀ (a : ℚ) (l : List ℚ), ∃ L, (a :: l).getLast? = some L
  | a, [] => ⟨a, rfl⟩
  | a, b :: l => by
    obtain ⟨L, hL⟩ := getLast?_cons_some b l
    exact ⟨L, by rw [List.getLast?_cons_cons]; exact hL⟩

/-- C7 counterexample: on a one-trackpoint document the Pace channel is
present with data `[0.0]`; the `max` accessor filters the strictly
positive entries, getting an empty list, and `min([])` raises
`ValueError` instead of returning a minimum positive element. -/
theorem C7_no_positive_pace_raises :
    timeMk c7Root = .ok ⟨[0], [0]⟩ ∧
    distanceMk c7Root = .ok (some [1000]) ∧
    paceGetData (some [0]) (some [1000]) = .ok (some [0]) ∧
    paceMax (some [0]) = .error .valueError := by
  refine ⟨?_, ?_, ?_, ?_⟩
  · norm_num [timeMk, timeGetData, timeGetDataLoop, trackpoints, c7Root,
      act1, tpTD]
  · norm_num [distanceMk, getData, getDataLoop, trackpoints, c7Root,
      act1, tpTD, Except.map]
  · norm_num [paceGetData, measureTruthy, paceLoop, paceVal, tdSeconds,
      Except.map, List.headI]
  · norm_num [paceMax]

/-- C7 (amended): for present pace data, `min` returns the maximum
element, `average` returns the last element, and `max` returns the
minimum strictly-positive element when at least one strictly positive
entry exists; when no entry is strictly positive, `max` raises
`ValueError` instead of returning anything. -/
theorem C7_pace_stats (l : List ℚ) (hl : l ≠ []) :
    (∃ m, paceMin (some l) = some m ∧ m ∈ l ∧ ∀ x ∈ l, x ≤ m) ∧
    (∃ a, paceAverage (some l) = some a ∧ l.getLast? = some a) ∧
    ((∃ x ∈ l, 0 < x) →
      ∃ m, paceMax (some l) = .ok (some m) ∧ m ∈ l ∧ 0 < m ∧
        ∀ x ∈ l, 0 < x → m ≤ x) ∧
    ((∀ x ∈ l, x ≤ 0) → paceMax (some l) = .error .valueError) := by
  cases l with
  | nil => exact absurd rfl hl
  | cons x xs =>
    refine ⟨⟨xs.foldl max x, rfl, foldl_max_mem xs x,
      fun y hy => le_foldl_max xs x y hy⟩, ?_, ?_, ?_⟩
    · obtain ⟨L, hL⟩ := getLast?_cons_some x xs
      exact ⟨L, by
        rw [show paceAverage (some (x :: xs)) = (x :: xs).getLast? from rfl]
        exact hL, hL⟩
    · intro hpos
      obtain ⟨y, hy, hy0⟩ := hpos
      cases hf : (x :: xs).filter (fun z => decide (0 < z)) with
      | nil =>
        exfalso
        have hyf : y ∈ (x :: xs).filter (fun z => decide (0 < z)) :=
          List.mem_filter.mpr ⟨hy, by simp [hy0]⟩
        rw [hf] at hyf
        simp at hyf
      | cons z zs =>
        have hmem : zs.foldl min z ∈ z :: zs := foldl_min_mem zs z
        have hmem2 : zs.foldl min z ∈
            (x :: xs).filter (fun w => decide (0 < w)) := by
          rw [hf]
          exact hmem
        obtain ⟨hmeml, hposm⟩ := List.mem_filter.mp hmem2
        refine ⟨zs.foldl min z, by simp [paceMax, hf], hmeml,
          by simpa using hposm, ?_⟩
        intro w hw hw0
        have hwf : w ∈ (x :: xs).filter (fun v => decide (0 < v)) :=
          List.mem_filter.mpr ⟨hw, by simp [hw0]⟩
        rw [hf] at hwf
        exact foldl_min_le zs z w hwf
    · intro hall
      cases hf : (x :: xs).filter (fun z => decide (0 < z)) with
      | nil => simp [paceMax, hf]
      | cons z zs =>
        exfalso
        have hzf : z ∈ (x :: xs).filter (fun v => decide (0 < v)) := by
          rw [hf]
          exact List.mem_cons_self _ _
        obtain ⟨hz1, hz2⟩ := List.mem_filter.mp hzf
        have hz3 := hall z hz1
        simp at hz2
        exact absurd hz2 (not_lt.mpr hz3)

/-- C7 witness: the amended statistics evaluated on the data
`[2, 1, 3]`. -/
theorem C7_pace_stats_witness :
    (∃ m, paceMin (some [(2 : ℚ), 1, 3]) = some m ∧ m ∈ [(2 : ℚ), 1, 3] ∧
      ∀ x ∈ [(2 : ℚ), 1, 3], x ≤ m) ∧
    (∃ a, paceAverage (some [(2 : ℚ), 1, 3]) = some a ∧
      [(2 : ℚ), 1, 3].getLast? = some a) ∧
    ((∃ x ∈ [(2 : ℚ), 1, 3], 0 < x) →
      ∃ m, paceMax (some [(2 : ℚ), 1, 3]) = .ok (some m) ∧
        m ∈ [(2 : ℚ), 1, 3] ∧ 0 < m ∧
        ∀ x ∈ [(2 : ℚ), 1, 3], 0 < x → m ≤ x) ∧
    ((∀ x ∈ [(2 : ℚ), 1, 3], x ≤ 0) →
      paceMax (some [(2 : ℚ), 1, 3]) = .error .valueError) :=
  C7_pace_stats [2, 1, 3] (List.cons_ne_nil _ _)

/-- C8 counterexample: a `.tcx` path whose document lacks the
`TrainingCenterDatabase` root makes `get_root` evaluate `xpath(...)[0]`
on an empty result and raise `IndexError`; the parser does not return a
degenerate object for this input. -/
theorem C8_missing_root_raises :
    tcxParserMk (some ("a.tcx", ⟨none⟩)) = .error .indexError := rfl

/-- C8 (amended): a `None` path or an unrecognized extension produces
the degenerate object with no initialized channel fields, without
raising; but when the extension is recognized and the expected root
element cannot be found, the parser raises `IndexError` instead. -/
theorem C8_degenerate_or_raise (p : String) (doc : Document) :
    tcxParserMk none = .ok none ∧
    ((strEndsWith (strLower p) ".tcx" = false ∧
      strEndsWith (strLower p) ".xml" = false) →
      tcxParserMk (some (p, doc)) = .ok none) ∧
    ((strEndsWith (strLower p) ".tcx" = true ∨
      strEndsWith (strLower p) ".xml" = true) →
      doc.root = none → tcxParserMk (some (p, doc)) = .error .indexError) := by
  refine ⟨rfl, ?_, ?_⟩
  · intro hext
    obtain ⟨h1, h2⟩ := hext
    have hroot : getRoot (some (p, doc)) = .ok none := by
      simp [getRoot, h1, h2]
    simp [tcxParserMk, hroot]
  · intro hor hnone
    have hcond : (strEndsWith (strLower p) ".tcx" ||
        strEndsWith (strLower p) ".xml") = true := by
      rcases hor with h | h <;> simp [h]
    have hroot : getRoot (some (p, doc)) = .error .indexError := by
      simp [getRoot, hcond, hnone]
    simp [tcxParserMk, hroot]

/-- C8 witness: an unrecognized extension yields the degenerate
object. -/
theorem C8_degenerate_or_raise_witness :
    tcxParserMk (some ("a.txt", (⟨some []⟩ : Document))) = .ok none :=
  (C8_degenerate_or_raise "a.txt" ⟨some []⟩).2.1 ⟨by decide, by decide⟩

/-- C10: for every successfully constructed Time channel, the duration
(last elapsed value) equals the last raw timestamp minus the first raw
timestamp, i.e. `Time.absolute.finish - Time.absolute.start`. -/
theorem C10_duration_relation (root : Activity) (tc : TimeChannel)
    (h : timeMk root = .ok tc) :
    (timeDuration tc).isSome = true ∧
    timeDuration tc =
      Option.map₂ (fun f s => f - s) (absTimeFinish tc.absolute)
        (absTimeStart tc.absolute) := by
  obtain ⟨r0, raws, habs, hdata, _⟩ := timeMk_ok_spec root tc h
  have hne : tc.data ≠ [] := by
    rw [hdata]
    simp
  have habsne : tc.absolute ≠ [] := by
    rw [habs]
    simp
  obtain ⟨L, hL⟩ := getLast?_cons_some r0 raws
  have hdur : timeDuration tc = some (L - r0) := by
    rw [timeDuration, if_neg hne, hdata, List.getLast?_map, hL]
    rfl
  have hfin : absTimeFinish tc.absolute = some L := by
    rw [absTimeFinish, if_neg habsne, habs]
    exact hL
  have hst : absTimeStart tc.absolute = some r0 := by
    rw [absTimeStart, if_neg habsne, habs]
    rfl
  rw [hdur, hfin, hst]
  exact ⟨rfl, rfl⟩

/-- C10 witness: the relation evaluated on a document with raw
timestamps 3 s and 10 s (duration 7 s). -/
theorem C10_duration_relation_witness :
    (timeDuration ⟨[0, 7], [3, 10]⟩).isSome = true ∧
    timeDuration ⟨[0, 7], [3, 10]⟩ =
      Option.map₂ (fun f s => f - s) (absTimeFinish [3, 10])
        (absTimeStart [3, 10]) :=
  C10_duration_relation c10Root ⟨[0, 7], [3, 10]⟩
    (by norm_num [timeMk, timeGetData, timeGetDataLoop, trackpoints,
      c10Root, act1, tpT])

/-- C5 counterexample: the claim universally concludes that TCXParser
raises a division-by-zero error, but the parser constructs heartrate
before pace; in a zero-distance document whose first trackpoint also
lacks `HeartRateBpm` (present later), construction raises `IndexError`
first, so the parser error is not a division-by-zero error even though
the claim's premises hold. -/
theorem C5_parser_earlier_error :
    timeMk c5CexRoot = .ok ⟨[0, 10], [0, 10]⟩ ∧
    distanceMk c5CexRoot = .ok (some [0, 50]) ∧
    heartRateMk c5CexRoot = .error .indexError ∧
    tcxParserMk (some ("w.tcx", ⟨some [c5CexRoot]⟩)) =
      .error .indexError ∧
    PyErr.indexError ≠ PyErr.zeroDivisionError := by
  refine ⟨?_, ?_, rfl, rfl, by decide⟩
  · norm_num [timeMk, timeGetData, timeGetDataLoop, trackpoints,
      c5CexRoot, act1, tpTD]
  · norm_num [distanceMk, getData, getDataLoop, trackpoints, c5CexRoot,
      act1, tpTD, Except.map]
